import Mathlib

/-!
Verification of the fawern repository's core behavior: the self-healing
code-execution loop (`fawern/chat_python.py`), the provider configuration and
factory (`fawern/config.py`, `fawern/providers/provider_factory.py`), the
assistant's provider switching (`fawern/base_assistant.py`), and the Groq
provider's blocking and streaming completions
(`fawern/providers/groq_provider.py`).

Subprocess invocations, the upstream completion API and the filesystem are
modelled as explicit inputs: an `ExecEnv` record supplies the results each
`subprocess.run` call would produce, and the upstream response is supplied as
a string (blocking) or a list of optional deltas (streaming).  Python machine
behavior (truthiness of strings and `None`, `str.strip`, substring tests, the
one fixed regular expression) is translated directly from the source.
-/

namespace Fawern

/-- Python `x or d` for an optional string `x`: `None` and the empty string are
falsy and give `d`. -/
def pyOrOpt (x : Option String) (d : String) : String :=
  match x with
  | none => d
  | some s => if s = "" then d else s

/-- Test that `needle` occurs as a contiguous run inside `hay`. -/
def containsChars (needle : List Char) : List Char → Bool
  | [] => needle.isEmpty
  | c :: rest => needle.isPrefixOf (c :: rest) || containsChars needle rest

/-- Python substring test `needle in hay`. -/
def containsStr (hay needle : String) : Bool :=
  containsChars needle.data hay.data

/-- Occurrence of `needle` inside `hay` (the propositional form of `containsStr`). -/
def SubstrOf (needle hay : String) : Prop :=
  ∃ pre post, hay.data = pre ++ needle.data ++ post

/-- Python `repr` of a list of strings, as an f-string formats
`list(AI_PROVIDERS.keys())`: `[\x27groq\x27, \x27openai\x27]`. -/
def pyListRepr (l : List String) : String :=
  "[" ++ String.intercalate ", " (l.map (fun s => "\x27" ++ s ++ "\x27")) ++ "]"

/-- Result of one `subprocess.run` call: exit status and captured streams. -/
structure ProcResult where
  returncode : Int
  stdout : String
  stderr : String
  deriving DecidableEq, Repr

/-- The results the operating system would hand back for each subprocess the
execution loop can start: the first script run, the `pip install`, the re-run
after installing, and the `pip uninstall`. -/
structure ExecEnv where
  run1 : ProcResult
  installResult : ProcResult
  run2 : ProcResult
  uninstallResult : ProcResult
  deriving DecidableEq, Repr

/-- ANSI color constants of `ChatPython` (`\033` is `\x1b`). -/
def RED : String := "\x1b[91m"

def RESET : String := "\x1b[0m"

/-- Capture of `[^\x27]+` run to the closing quote: the characters strictly
before the next single quote, or `none` when no closing quote follows. -/
def takeUntilQuote : List Char → Option (List Char)
  | [] => none
  | c :: rest => if c = '\x27' then some [] else (takeUntilQuote rest).map (fun l => c :: l)

/-- Match of the fixed pattern `No module named \x27([^\x27]+)\x27` anchored at
the head of `l`: the literal text, then a non-empty capture, then the closing
quote. -/
def matchModuleAt (l : List Char) : Option (List Char) :=
  let pat := "No module named \x27".data
  if pat.isPrefixOf l then
    match takeUntilQuote (l.drop pat.length) with
    | some cap => if cap = [] then none else some cap
    | none => none
  else none

/-- Leftmost match of the pattern, the way `re.search` scans the string. -/
def searchModule : List Char → Option (List Char)
  | [] => none
  | c :: rest =>
    match matchModuleAt (c :: rest) with
    | some cap => some cap
    | none => searchModule rest

/-- Dependency name extracted from the error stream; models
`re.search(r"No module named \x27([^\x27]+)\x27", stderr)` followed by
`match.group(1)` in `ChatPython._run_generated_code`. -/
def findModuleName (stderr : String) : Option String :=
  (searchModule stderr.data).map String.mk

/-- Observable side effects of one `_run_generated_code` invocation: how many
times the script was executed and which modules `pip install` / `pip uninstall`
were invoked for, in order. -/
structure Effects where
  scriptRuns : Nat
  installs : List String
  uninstalls : List String
  deriving DecidableEq, Repr

/-- Terminal outcome of `_run_generated_code`: a normal return carrying the
captured stdout, or a raised exception carrying its message. -/
inductive RunOutcome where
  | ok (stdout : String)
  | err (detail : String)
  deriving DecidableEq, Repr

/-- Message of `Exception(f"{RED}Script error:\n{stderr}{RESET}")`. -/
def scriptErrorMsg (stderr : String) : String :=
  RED ++ "Script error:\n" ++ stderr ++ RESET

/-- Message of
`Exception(f"{RED}Error after installing {m}:{RESET}\n{stderr}")`. -/
def errorAfterInstallMsg (missingModule stderr : String) : String :=
  RED ++ "Error after installing " ++ missingModule ++ ":" ++ RESET ++ "\n" ++ stderr

/-- Message of
`Exception(f"{RED}Failed to install \x27{m}\x27:\n{stderr}{RESET}")`. -/
def installFailedMsg (missingModule stderr : String) : String :=
  RED ++ "Failed to install \x27" ++ missingModule ++ "\x27:\n" ++ stderr ++ RESET

/-- Message of the outer wrapper
`Exception(f"{RED}Cannot run code: {e}{RESET}")`. -/
def cannotRunMsg (e : String) : String :=
  RED ++ "Cannot run code: " ++ e ++ RESET

/-- Model of `ChatPython._run_generated_code` (chat_python.py lines 126-170), with the
subprocess results supplied by `env`.  The file-existence guard at entry is
outside this model: `generate_code` writes the artifact immediately before
calling this.  Every `raise` inside the `try` block is caught by the outer
`except` and re-raised as `Cannot run code: ...`; the uninstall result is only
printed and never changes the outcome. -/
def runGeneratedCode (env : ExecEnv) (cleanupInstalledModule : Bool) :
    RunOutcome × Effects :=
  let result := env.run1
  if result.returncode ≠ 0 then
    if containsStr result.stderr "ModuleNotFoundError" then
      match findModuleName result.stderr with
      | some missingModule =>
        if env.installResult.returncode = 0 then
          let result2 := env.run2
          if result2.returncode ≠ 0 then
            (RunOutcome.err (cannotRunMsg (errorAfterInstallMsg missingModule result2.stderr)),
              ⟨2, [missingModule], []⟩)
          else if cleanupInstalledModule then
            (RunOutcome.ok result2.stdout, ⟨2, [missingModule], [missingModule]⟩)
          else
            (RunOutcome.ok result2.stdout, ⟨2, [missingModule], []⟩)
        else
          (RunOutcome.err (cannotRunMsg (installFailedMsg missingModule env.installResult.stderr)),
            ⟨1, [missingModule], []⟩)
      | none =>
        (RunOutcome.err (cannotRunMsg (scriptErrorMsg result.stderr)), ⟨1, [], []⟩)
    else
      (RunOutcome.err (cannotRunMsg (scriptErrorMsg result.stderr)), ⟨1, [], []⟩)
  else
    (RunOutcome.ok result.stdout, ⟨1, [], []⟩)

/-- The whitespace characters Python `str.strip()` removes. -/
def isPySpace (c : Char) : Bool :=
  c = ' ' || c = '\t' || c = '\n' || c = '\r' || c = '\x0b' || c = '\x0c'

/-- Python `str.strip()` on a character list: drop whitespace at both ends. -/
def stripChars (l : List Char) : List Char :=
  ((l.dropWhile isPySpace).reverse.dropWhile isPySpace).reverse

/-- Python `str.strip()`. -/
def pyStrip (s : String) : String := String.mk (stripChars s.data)

/-- Split a character list at every `\n`, keeping empty parts. -/
def splitNl : List Char → List (List Char)
  | [] => [[]]
  | c :: rest =>
    if c = '\n' then [] :: splitNl rest
    else
      match splitNl rest with
      | [] => [[c]]
      | h :: t => (c :: h) :: t

/-- Join lines back with `\n`, as `"\n".join(lines)` does. -/
def joinNl : List (List Char) → List Char
  | [] => []
  | [l] => l
  | l :: ls => l ++ '\n' :: joinNl ls

/-- Python `str.splitlines` restricted to `\n` boundaries (the only boundary
the claims exercise): like splitting on `\n` but with no trailing empty line
and `[]` on the empty string. -/
def pySplitlines (l : List Char) : List (List Char) :=
  if l = [] then []
  else
    let parts := splitNl l
    if parts.getLast? = some [] then parts.dropLast else parts

/-- Model of the marker-stripping helper of `ChatPython` (chat_python.py lines 82-94): drop every
backtick (`code.replace` of a one-character pattern with the empty string),
split into lines, and when the first line, stripped, starts with `python`,
remove that marker from it and rejoin; otherwise return the backtick-free
text. -/
def removePythonHeader (code : String) : String :=
  let chars := code.data.filter (fun c => c != '\x60')
  match pySplitlines chars with
  | [] => String.mk chars
  | first :: rest =>
    let ft := stripChars first
    if "python".data.isPrefixOf ft then
      String.mk (joinNl (stripChars (ft.drop 6) :: rest))
    else String.mk chars

/-- The four keyword flags of `ChatPython.generate_code`. -/
structure GenFlags where
  writeCodeToFile : Bool
  runCode : Bool
  cleanupInstalledModule : Bool
  cleanupGeneratedFile : Bool
  deriving DecidableEq, Repr

/-- Outcome of `generate_code`: a normal return or a propagated exception. -/
inductive GenResult where
  | ret (value : String)
  | raised (detail : String)
  deriving DecidableEq, Repr

/-- Whether a `GenResult` is a normal return. -/
def GenResult.isReturn : GenResult → Bool
  | .ret _ => true
  | .raised _ => false

/-- Full observation of one `generate_code` call: its outcome, how many times
the artifact file was written, whether the artifact still exists at the end,
and the execution loop's side effects. -/
structure GenOutput where
  result : GenResult
  fileWrites : Nat
  fileExistsAfter : Bool
  runEffects : Effects
  deriving DecidableEq, Repr

/-- Message of `Exception(f"{RED}No code generated yet{RESET}")` raised by
`_write_code_to_file` when the generated code is empty. -/
def noCodeMsg : String := RED ++ "No code generated yet" ++ RESET

/-- Model of `ChatPython.generate_code` (chat_python.py lines 48-80), taking the
upstream completion text and the subprocess environment as inputs.
`removeSucceeds` says whether the `os.remove` call would succeed when reached
(its failure is caught and only logged).  When `write_code_to_file` is false,
`run_code` is forced to false; when the loop raises, the exception propagates
out of `generate_code` before the cleanup block runs. -/
def generate_code (completion : String) (env : ExecEnv) (flags : GenFlags)
    (removeSucceeds : Bool) : GenOutput :=
  let generatedCode := removePythonHeader completion
  let runCode := flags.writeCodeToFile && flags.runCode
  if runCode then
    if generatedCode = "" then
      { result := GenResult.raised noCodeMsg, fileWrites := 0, fileExistsAfter := false,
        runEffects := ⟨0, [], []⟩ }
    else
      match runGeneratedCode env flags.cleanupInstalledModule with
      | (RunOutcome.ok out, eff) =>
        { result := GenResult.ret (if out = "" then generatedCode else out),
          fileWrites := 1,
          fileExistsAfter := !(flags.cleanupGeneratedFile && removeSucceeds),
          runEffects := eff }
      | (RunOutcome.err d, eff) =>
        { result := GenResult.raised d, fileWrites := 1, fileExistsAfter := true,
          runEffects := eff }
  else
    { result := GenResult.ret generatedCode, fileWrites := 0, fileExistsAfter := false,
      runEffects := ⟨0, [], []⟩ }

/-- One entry of the `AI_PROVIDERS` dictionary in `config.py` (everything but
the resolved key).  `client_class` is the dictionary's `"client_class"`
value. -/
structure ProviderMeta where
  api_key_env : String
  default_model : String
  base_url : String
  client_class : String
  deriving DecidableEq, Repr

/-- The `AI_PROVIDERS` dictionary from `config.py`, in insertion order. -/
def AI_PROVIDERS : List (String × ProviderMeta) :=
  [("groq", ⟨"GROQ_API_KEY", "llama-3.1-70b-versatile",
      "https://api.groq.com/openai/v1", "GroqClient"⟩),
   ("openai", ⟨"OPENAI_API_KEY", "gpt-4",
      "https://api.openai.com/v1", "OpenAIClient"⟩)]

/-- The `API_KEYS` dictionary built at import time in `config.py`: a provider
has a key exactly when `os.getenv` on its `api_key_env` yields a non-empty
string. -/
def mkApiKeys (getenv : String → Option String) : String → Option String :=
  fun provider =>
    match AI_PROVIDERS.lookup provider with
    | none => none
    | some meta =>
      match getenv meta.api_key_env with
      | none => none
      | some k => if k = "" then none else some k

/-- The dictionary `get_provider_config` returns: the provider's
`AI_PROVIDERS` entry plus the resolved `api_key`. -/
structure ProviderConfig where
  api_key_env : String
  default_model : String
  base_url : String
  client_class : String
  api_key : String
  deriving DecidableEq, Repr

/-- Model of `get_provider_config` (config.py lines 59-79): fall back to the default
provider on a falsy name, reject names outside `AI_PROVIDERS` listing its
keys, and reject a missing (or empty, via `if not`) API key. -/
def get_provider_config (apiKeys : String → Option String) (defaultProvider : String)
    (providerArg : Option String) : Except String ProviderConfig :=
  let provider := pyOrOpt providerArg defaultProvider
  match AI_PROVIDERS.lookup provider with
  | none =>
    Except.error ("Unknown provider: " ++ provider ++ ". Available: " ++
      pyListRepr (AI_PROVIDERS.map (fun p => p.1)))
  | some meta =>
    match apiKeys provider with
    | none => Except.error ("API key not found for provider: " ++ provider)
    | some k =>
      if k = "" then Except.error ("API key not found for provider: " ++ provider)
      else Except.ok ⟨meta.api_key_env, meta.default_model, meta.base_url,
        meta.client_class, k⟩

/-- The keys of `ProviderFactory._providers`, in insertion order. -/
def factoryRegistry : List String := ["groq", "openai"]

/-- A constructed provider object (`GroqProvider` / `OpenAIProvider`):
which class was instantiated, the key and model it was given, the extra
kwargs, and a token identifying the freshly constructed network client
(each `Groq(api_key=...)` / `OpenAI(api_key=...)` call makes a new one). -/
structure ProviderInstance where
  providerClass : String
  api_key : String
  model : Option String
  extra : List (String × String)
  clientId : Nat
  deriving DecidableEq, Repr

/-- Python `dict` assignment `d[k] = v`. -/
def dictSet (d : List (String × String)) (k v : String) : List (String × String) :=
  if d.any (fun p => p.1 = k) then
    d.map (fun p => if p.1 = k then (k, v) else p)
  else d ++ [(k, v)]

/-- Python `d.update(new)`. -/
def dictUpdate (d new : List (String × String)) : List (String × String) :=
  new.foldl (fun acc p => dictSet acc p.1 p.2) d

/-- Model of `ProviderFactory.get_provider` (provider_factory.py lines 20-47).
`modelKwarg` is `some v` when the caller passed `model=v` (possibly `None`),
`none` when the keyword is absent — `kwargs.pop("model", default)` only falls
back to the config's default model when the key is absent.  The returned
config has no `"provider"` key, so `config.get("provider", "groq")` is
`"groq"`.  `fresh` is the identity given to the newly constructed client. -/
def ProviderFactory_get_provider (apiKeys : String → Option String)
    (defaultProvider : String) (providerArg : Option String)
    (modelKwarg : Option (Option String)) (kwargs : List (String × String))
    (fresh : Nat) : Except String ProviderInstance :=
  match get_provider_config apiKeys defaultProvider providerArg with
  | Except.error e => Except.error e
  | Except.ok config =>
    let provider_name := pyOrOpt providerArg "groq"
    if factoryRegistry.contains provider_name then
      let model : Option String :=
        match modelKwarg with
        | none => some config.default_model
        | some v => v
      Except.ok ⟨provider_name, config.api_key, model, kwargs, fresh⟩
    else
      Except.error ("Unknown provider: " ++ provider_name ++ ". Available: " ++
        pyListRepr factoryRegistry)

/-- The mutable state of a `BaseAssistant`: the attributes set by `__init__`
plus `nextClientId`, the supply of fresh client identities for the next
provider construction. -/
structure Assistant where
  provider_name : String
  model : String
  provider_config : ProviderConfig
  kwargs : List (String × String)
  provider : ProviderInstance
  nextClientId : Nat
  deriving DecidableEq, Repr

/-- Error wrapper of `BaseAssistant._initialize_provider` (base_assistant.py
lines 56-69). -/
def initFailedMsg (providerName inner : String) : String :=
  "Failed to initialize provider \x27" ++ providerName ++ "\x27: " ++ inner ++
    ". Available providers: " ++ pyListRepr factoryRegistry

/-- Model of the `BaseAssistant` constructor (base_assistant.py lines 23-54): resolve the
provider name (falling back to the default), fetch its config, resolve the
model (falling back to the config's default model on a falsy value), then
construct the provider via the factory, passing `model=self.model`
explicitly. -/
def BaseAssistant_init (apiKeys : String → Option String) (defaultProvider : String)
    (providerArg : Option String) (modelArg : Option String)
    (kwargs : List (String × String)) (startId : Nat) : Except String Assistant :=
  let provider_name := pyOrOpt providerArg defaultProvider
  match get_provider_config apiKeys defaultProvider (some provider_name) with
  | Except.error e => Except.error e
  | Except.ok config =>
    let model := pyOrOpt modelArg config.default_model
    match ProviderFactory_get_provider apiKeys defaultProvider (some provider_name)
        (some (some model)) kwargs startId with
    | Except.ok inst =>
      Except.ok ⟨provider_name, model, config, kwargs, inst, startId + 1⟩
    | Except.error e => Except.error (initFailedMsg provider_name e)

/-- Model of `BaseAssistant.switch_provider` (base_assistant.py lines 118-128): record
the new name, merge the kwargs, and reinitialize the provider.  Neither
`self.model` nor `self.provider_config` is touched. -/
def switch_provider (apiKeys : String → Option String) (defaultProvider : String)
    (a : Assistant) (newName : String) (kw : List (String × String)) :
    Except String Assistant :=
  match ProviderFactory_get_provider apiKeys defaultProvider (some newName)
      (some (some a.model)) (dictUpdate a.kwargs kw) a.nextClientId with
  | Except.ok inst =>
    Except.ok { a with
      provider_name := newName
      kwargs := dictUpdate a.kwargs kw
      provider := inst
      nextClientId := a.nextClientId + 1 }
  | Except.error e => Except.error (initFailedMsg newName e)

/-- The upstream request a completion call issues: which client it goes
through and which model it names (`provider.get_completion` reads the model
from the provider instance itself). -/
structure UpstreamRequest where
  clientId : Nat
  model : Option String
  prompt : String
  deriving DecidableEq, Repr

/-- The request `BaseAssistant._get_completion` would send: it always goes
through `self._provider`, whose own model and client are used. -/
def assistantCompletionRequest (a : Assistant) (prompt : String) : UpstreamRequest :=
  ⟨a.provider.clientId, a.provider.model, prompt⟩

/-- Model of `GroqProvider.get_completion` (groq_provider.py lines 38-64) applied to an
upstream response whose first choice's message content is `content`: the
result is `completion.choices[0].message.content.strip()`. -/
def groq_get_completion (content : String) : String :=
  pyStrip content

/-- The filter the streaming loop applies to one chunk's delta:
`if chunk.choices[0].delta.content:` keeps only a present, non-empty delta. -/
def keepDelta : Option String → Option String
  | none => none
  | some s => if s = "" then none else some s

/-- Model of `GroqProvider.get_streaming_completion` (groq_provider.py lines 66-95)
applied to an upstream stream whose successive delta contents are `deltas`
(`none` for a chunk with no content): the chunks yielded, in order. -/
def groq_get_streaming_completion (deltas : List (Option String)) : List String :=
  deltas.filterMap keepDelta

/-- Concatenation of a list of string fragments. -/
def concatStrings (l : List String) : String :=
  l.foldr (fun a b => a ++ b) ""

/-- The full content an upstream stream carries: its deltas concatenated, a
missing delta contributing nothing. -/
def concatDeltas (deltas : List (Option String)) : String :=
  concatStrings (deltas.map (fun d => d.getD ""))

theorem substrOf_wrap (p s q : String) : SubstrOf s (p ++ s ++ q) :=
  ⟨p.data, q.data, by simp [String.data_append]⟩

theorem substrOf_of_eq (p s q msg : String) (h : msg = p ++ s ++ q) :
    SubstrOf s msg :=
  h ▸ substrOf_wrap p s q

theorem substrOf_cannotRun_scriptError (s : String) :
    SubstrOf s (cannotRunMsg (scriptErrorMsg s)) :=
  substrOf_of_eq (RED ++ "Cannot run code: " ++ RED ++ "Script error:\n") s
    (RESET ++ RESET) _ (by simp [cannotRunMsg, scriptErrorMsg, String.append_assoc])

theorem substrOf_cannotRun_errorAfterInstall (m s : String) :
    SubstrOf s (cannotRunMsg (errorAfterInstallMsg m s)) :=
  substrOf_of_eq
    (RED ++ "Cannot run code: " ++ RED ++ "Error after installing " ++ m ++ ":" ++ RESET ++ "\n")
    s RESET _ (by simp [cannotRunMsg, errorAfterInstallMsg, String.append_assoc])

/-- C4: for every failed execution whose stderr does not match the fixed
missing-dependency pattern, the loop reports a Failed outcome whose detail
surfaces that stderr, and no package-installer invocation occurs. -/
theorem claim_C4 (env : ExecEnv) (cleanup : Bool)
    (hfail : env.run1.returncode ≠ 0)
    (hnomatch : findModuleName env.run1.stderr = none) :
    runGeneratedCode env cleanup =
      (RunOutcome.err (cannotRunMsg (scriptErrorMsg env.run1.stderr)), ⟨1, [], []⟩) ∧
    SubstrOf env.run1.stderr (cannotRunMsg (scriptErrorMsg env.run1.stderr)) := by
  refine ⟨?_, substrOf_cannotRun_scriptError env.run1.stderr⟩
  cases h : containsStr env.run1.stderr "ModuleNotFoundError" <;>
    simp [runGeneratedCode, hfail, h, hnomatch]

def envC4 : ExecEnv :=
  ⟨⟨1, "", "SyntaxError: invalid syntax"⟩, ⟨0, "", ""⟩, ⟨0, "", ""⟩, ⟨0, "", ""⟩⟩

/-- C4 witness: a concrete failing run whose stderr matches no dependency
pattern ends Failed with that stderr surfaced and no install. -/
theorem claim_C4_witness :
    (envC4.run1.returncode ≠ 0 ∧ findModuleName envC4.run1.stderr = none) ∧
    (runGeneratedCode envC4 true =
      (RunOutcome.err (cannotRunMsg (scriptErrorMsg envC4.run1.stderr)), ⟨1, [], []⟩) ∧
     SubstrOf envC4.run1.stderr (cannotRunMsg (scriptErrorMsg envC4.run1.stderr))) :=
  ⟨⟨by decide, by rfl⟩, claim_C4 envC4 true (by decide) (by rfl)⟩

def envC2cex : ExecEnv :=
  ⟨⟨1, "", "No module named \x27requests\x27"⟩, ⟨0, "", ""⟩, ⟨0, "OK", ""⟩, ⟨0, "", ""⟩⟩

/-- C2 counterexample: the first attempt fails and its stderr contains
`No module named \x27requests\x27`, the install would succeed and the retry
would exit 0 with stdout `OK`; yet because the stderr lacks the literal text
`ModuleNotFoundError`, the loop installs nothing, runs nothing again, and
fails instead of returning the retry's stdout. -/
theorem claim_C2_counterexample :
    (envC2cex.run1.returncode ≠ 0 ∧
     containsStr envC2cex.run1.stderr "No module named \x27requests\x27" = true ∧
     envC2cex.installResult.returncode = 0 ∧ envC2cex.run2.returncode = 0) ∧
    (runGeneratedCode envC2cex true).2.installs = [] ∧
    (runGeneratedCode envC2cex true).2.scriptRuns = 1 ∧
    (runGeneratedCode envC2cex true).1 ≠ RunOutcome.ok "OK" := by
  exact ⟨⟨by decide, by rfl, by rfl, by rfl⟩, by rfl, by rfl, by decide⟩

/-- C2 (amended): for every execution whose first attempt fails with stderr
containing the literal text `ModuleNotFoundError` and matching the fixed
pattern `No module named \x27m\x27`, when the install of `m` succeeds and the
retry exits with status 0, the loop has installed exactly `m`, executed the
artifact exactly once more, and returns the retry's captured stdout. -/
theorem claim_C2 (env : ExecEnv) (cleanup : Bool) (m : String)
    (hfail : env.run1.returncode ≠ 0)
    (hmnfe : containsStr env.run1.stderr "ModuleNotFoundError" = true)
    (hfind : findModuleName env.run1.stderr = some m)
    (hinst : env.installResult.returncode = 0)
    (hretry : env.run2.returncode = 0) :
    runGeneratedCode env cleanup =
      (RunOutcome.ok env.run2.stdout, ⟨2, [m], if cleanup then [m] else []⟩) := by
  cases cleanup <;> simp [runGeneratedCode, hfail, hmnfe, hfind, hinst, hretry]

def envC2 : ExecEnv :=
  ⟨⟨1, "", "ModuleNotFoundError: No module named \x27foo\x27"⟩, ⟨0, "", ""⟩,
    ⟨0, "OK", ""⟩, ⟨0, "", ""⟩⟩

/-- C2 witness: a concrete failing run with a matching stderr, a successful
install, and a clean retry returns the retry's stdout after exactly one
install and one re-execution. -/
theorem claim_C2_witness :
    (envC2.run1.returncode ≠ 0 ∧
     containsStr envC2.run1.stderr "ModuleNotFoundError" = true ∧
     findModuleName envC2.run1.stderr = some "foo" ∧
     envC2.installResult.returncode = 0 ∧ envC2.run2.returncode = 0) ∧
    runGeneratedCode envC2 true = (RunOutcome.ok "OK", ⟨2, ["foo"], ["foo"]⟩) :=
  ⟨⟨by decide, by rfl, by rfl, by rfl, by rfl⟩,
   claim_C2 envC2 true "foo" (by decide) (by rfl) (by rfl) (by rfl) (by rfl)⟩

/-- C3: in every invocation of the execution loop, at most one dependency
install is ever attempted; and when the retry after a successful install
fails again, the loop surfaces the retry's stderr as a Failed outcome with
exactly the one install recorded. -/
theorem claim_C3 (env : ExecEnv) (cleanup : Bool) :
    (runGeneratedCode env cleanup).2.installs.length ≤ 1 ∧
    (∀ m, env.run1.returncode ≠ 0 →
      containsStr env.run1.stderr "ModuleNotFoundError" = true →
      findModuleName env.run1.stderr = some m →
      env.installResult.returncode = 0 →
      env.run2.returncode ≠ 0 →
      runGeneratedCode env cleanup =
        (RunOutcome.err (cannotRunMsg (errorAfterInstallMsg m env.run2.stderr)),
          ⟨2, [m], []⟩) ∧
      SubstrOf env.run2.stderr (cannotRunMsg (errorAfterInstallMsg m env.run2.stderr))) := by
  constructor
  · by_cases h1 : env.run1.returncode ≠ 0
    · by_cases h2 : containsStr env.run1.stderr "ModuleNotFoundError" = true
      · cases h3 : findModuleName env.run1.stderr with
        | none => simp [runGeneratedCode, h1, h2, h3]
        | some m =>
          by_cases h4 : env.installResult.returncode = 0
          · by_cases h5 : env.run2.returncode ≠ 0
            · simp [runGeneratedCode, h1, h2, h3, h4, h5]
            · cases cleanup <;> simp [runGeneratedCode, h1, h2, h3, h4, h5]
          · simp [runGeneratedCode, h1, h2, h3, h4]
      · simp [runGeneratedCode, h1, h2]
    · simp [runGeneratedCode, h1]
  · intro m h1 h2 h3 h4 h5
    exact ⟨by simp [runGeneratedCode, h1, h2, h3, h4, h5],
      substrOf_cannotRun_errorAfterInstall m env.run2.stderr⟩

def envC3 : ExecEnv :=
  ⟨⟨1, "", "ModuleNotFoundError: No module named \x27foo\x27"⟩, ⟨0, "", ""⟩,
    ⟨1, "", "retry boom"⟩, ⟨0, "", ""⟩⟩

/-- C3 witness: on a concrete run whose retry fails again, only the single
install is recorded and the retry's stderr is surfaced. -/
theorem claim_C3_witness :
    (runGeneratedCode envC3 true).2.installs.length ≤ 1 ∧
    (runGeneratedCode envC3 true =
      (RunOutcome.err (cannotRunMsg (errorAfterInstallMsg "foo" "retry boom")),
        ⟨2, ["foo"], []⟩) ∧
     SubstrOf "retry boom" (cannotRunMsg (errorAfterInstallMsg "foo" "retry boom"))) :=
  ⟨(claim_C3 envC3 true).1,
   (claim_C3 envC3 true).2 "foo" (by decide) (by rfl) (by rfl) (by rfl) (by decide)⟩

def envC1cex : ExecEnv :=
  ⟨⟨1, "", "boom"⟩, ⟨0, "", ""⟩, ⟨0, "", ""⟩, ⟨0, "", ""⟩⟩

/-- C1 counterexample: `generate_code` with `cleanup_generated_file` enabled
(and a removal call that would succeed) on a run that ends in the Failed
terminal state: the exception propagates before the cleanup block, and the
persisted artifact still exists afterward. -/
theorem claim_C1_counterexample :
    (generate_code "print(1)" envC1cex ⟨true, true, true, true⟩ true).result.isReturn
      = false ∧
    (generate_code "print(1)" envC1cex ⟨true, true, true, true⟩ true).fileWrites = 1 ∧
    (generate_code "print(1)" envC1cex ⟨true, true, true, true⟩ true).fileExistsAfter
      = true := by
  exact ⟨by rfl, by rfl, by rfl⟩

/-- C1 (amended): with `cleanup_generated_file` enabled and the removal call
succeeding, the artifact no longer exists after a Success terminal state
(a normal return); after a Failed terminal state the exception propagates
before the cleanup block, so the artifact still exists. -/
theorem claim_C1 (completion : String) (env : ExecEnv) (cm : Bool)
    (hcode : removePythonHeader completion ≠ "") :
    ((generate_code completion env ⟨true, true, cm, true⟩ true).result.isReturn = true →
      (generate_code completion env ⟨true, true, cm, true⟩ true).fileExistsAfter = false) ∧
    ((generate_code completion env ⟨true, true, cm, true⟩ true).result.isReturn = false →
      (generate_code completion env ⟨true, true, cm, true⟩ true).fileExistsAfter = true) := by
  rcases hr : runGeneratedCode env cm with ⟨fst, snd⟩
  cases fst <;> simp [generate_code, hcode, hr, GenResult.isReturn]

def envC1w : ExecEnv :=
  ⟨⟨0, "hello", ""⟩, ⟨0, "", ""⟩, ⟨0, "", ""⟩, ⟨0, "", ""⟩⟩

/-- C1 witness: on a concrete successful run with cleanup enabled the
artifact is gone afterward. -/
theorem claim_C1_witness :
    removePythonHeader "print(1)" ≠ "" ∧
    (((generate_code "print(1)" envC1w ⟨true, true, true, true⟩ true).result.isReturn = true →
      (generate_code "print(1)" envC1w ⟨true, true, true, true⟩ true).fileExistsAfter = false) ∧
     ((generate_code "print(1)" envC1w ⟨true, true, true, true⟩ true).result.isReturn = false →
      (generate_code "print(1)" envC1w ⟨true, true, true, true⟩ true).fileExistsAfter = true)) :=
  ⟨by decide, claim_C1 "print(1)" envC1w true (by decide)⟩

/-- C9: calling `generate_code` with `write_code_to_file = False` performs no
file write and no execution, whatever the other flags say (in particular even
with `run_code = True`), and returns the prefix-stripped generated text. -/
theorem claim_C9 (completion : String) (env : ExecEnv) (rc cm cf rs : Bool) :
    generate_code completion env ⟨false, rc, cm, cf⟩ rs =
      ⟨GenResult.ret (removePythonHeader completion), 0, false, ⟨0, [], []⟩⟩ := by
  simp [generate_code]

/-- C10: when the run reaches the Success terminal state, `generate_code`
returns the captured stdout when it is non-empty and falls back to the
generated source text when the stdout is the empty string. -/
theorem claim_C10 (completion : String) (env : ExecEnv) (cm cf rs : Bool)
    (hcode : removePythonHeader completion ≠ "") :
    ((runGeneratedCode env cm).1 = RunOutcome.ok "" →
      (generate_code completion env ⟨true, true, cm, cf⟩ rs).result =
        GenResult.ret (removePythonHeader completion)) ∧
    (∀ s, (runGeneratedCode env cm).1 = RunOutcome.ok s → s ≠ "" →
      (generate_code completion env ⟨true, true, cm, cf⟩ rs).result =
        GenResult.ret s) := by
  rcases hr : runGeneratedCode env cm with ⟨fst, snd⟩
  constructor
  · intro h
    simp only at h
    subst h
    simp [generate_code, hcode, hr]
  · intro s h hs
    simp only at h
    subst h
    simp [generate_code, hcode, hr, hs]

def envC10 : ExecEnv :=
  ⟨⟨0, "", ""⟩, ⟨0, "", ""⟩, ⟨0, "", ""⟩, ⟨0, "", ""⟩⟩

/-- C10 witness: a concrete successful run with empty stdout makes
`generate_code` return the generated source text. -/
theorem claim_C10_witness :
    removePythonHeader "print(1)" ≠ "" ∧
    (((runGeneratedCode envC10 true).1 = RunOutcome.ok "" →
      (generate_code "print(1)" envC10 ⟨true, true, true, true⟩ true).result =
        GenResult.ret (removePythonHeader "print(1)")) ∧
     (∀ s, (runGeneratedCode envC10 true).1 = RunOutcome.ok s → s ≠ "" →
      (generate_code "print(1)" envC10 ⟨true, true, true, true⟩ true).result =
        GenResult.ret s)) :=
  ⟨by decide, claim_C10 "print(1)" envC10 true true true (by decide)⟩

theorem concat_streaming_eq_concatDeltas (deltas : List (Option String)) :
    concatStrings (groq_get_streaming_completion deltas) = concatDeltas deltas := by
  induction deltas with
  | nil => rfl
  | cons d rest ih =>
    cases d with
    | none =>
      simpa [groq_get_streaming_completion, concatDeltas, concatStrings, keepDelta,
        String.empty_append] using ih
    | some s =>
      by_cases hs : s = ""
      · subst hs
        simpa [groq_get_streaming_completion, concatDeltas, concatStrings, keepDelta,
          String.empty_append] using ih
      · simp only [groq_get_streaming_completion, concatDeltas, concatStrings, keepDelta,
          List.filterMap_cons, List.map_cons, List.foldr_cons, Option.getD_some, if_neg hs] at ih ⊢
        rw [ih]

/-- C5 counterexample: for the upstream content ` hi` delivered to the
streaming variant as the single delta ` hi`, the blocking variant returns the
stripped string `hi` while the streaming chunks concatenate to ` hi`: the two
variants disagree on content with surrounding whitespace. -/
theorem claim_C5_counterexample :
    concatDeltas [some " hi"] = " hi" ∧
    groq_get_completion " hi" = "hi" ∧
    concatStrings (groq_get_streaming_completion [some " hi"]) = " hi" ∧
    concatStrings (groq_get_streaming_completion [some " hi"]) ≠
      groq_get_completion " hi" := by
  exact ⟨by decide, by decide, by decide, by decide⟩

/-- C5 (amended): for every upstream response whose delta contents concatenate
to the blocking response's content, the concatenation of the chunks produced by
the streaming variant equals the string the blocking variant returns, provided
that content carries no surrounding whitespace (the blocking variant strips it,
the streaming variant does not). -/
theorem claim_C5 (content : String) (deltas : List (Option String))
    (hsame : concatDeltas deltas = content)
    (htrim : pyStrip content = content) :
    concatStrings (groq_get_streaming_completion deltas) =
      groq_get_completion content := by
  rw [concat_streaming_eq_concatDeltas, hsame, groq_get_completion, htrim]

/-- C5 witness: a concrete stream `a`, (no content), (empty), `b` concatenates
to the blocking result for content `ab`. -/
theorem claim_C5_witness :
    (concatDeltas [some "a", none, some "", some "b"] = "ab" ∧
     pyStrip "ab" = "ab") ∧
    concatStrings (groq_get_streaming_completion [some "a", none, some "", some "b"]) =
      groq_get_completion "ab" :=
  ⟨⟨by decide, by decide⟩,
   claim_C5 "ab" [some "a", none, some "", some "b"] (by decide) (by decide)⟩

theorem substrOf_trans {a b c : String} (h1 : SubstrOf a b) (h2 : SubstrOf b c) :
    SubstrOf a c := by
  obtain ⟨p1, q1, e1⟩ := h1
  obtain ⟨p2, q2, e2⟩ := h2
  exact ⟨p2 ++ p1, q1 ++ q2, by rw [e2, e1]; simp⟩

def apiKeysGroqOnly : String → Option String :=
  mkApiKeys (fun v => if v = "GROQ_API_KEY" then some "gk" else none)

/-- C7 counterexample: the empty string is a provider name absent from the
registry, yet requesting it does not fail: it is falsy in Python, so both
`get_provider_config` and the factory fall back to the default provider and a
groq instance is constructed. -/
theorem claim_C7_counterexample :
    factoryRegistry.contains "" = false ∧
    AI_PROVIDERS.lookup "" = none ∧
    ProviderFactory_get_provider apiKeysGroqOnly "groq" (some "") none [] 0 =
      Except.ok ⟨"groq", "gk", some "llama-3.1-70b-versatile", [], 0⟩ := by
  exact ⟨by decide, by rfl, by rfl⟩

/-- C7 (amended): for every non-empty provider name not present in the
registry, requesting that provider fails with an error whose message lists the
currently registered provider names (the empty name instead falls back to the
default provider). -/
theorem claim_C7 (apiKeys : String → Option String) (defaultProvider name : String)
    (modelKwarg : Option (Option String)) (kwargs : List (String × String)) (fresh : Nat)
    (hne : name ≠ "") (hg : name ≠ "groq") (ho : name ≠ "openai") :
    ProviderFactory_get_provider apiKeys defaultProvider (some name) modelKwarg kwargs fresh =
      Except.error ("Unknown provider: " ++ name ++ ". Available: " ++
        pyListRepr ["groq", "openai"]) ∧
    (∀ r ∈ factoryRegistry,
      SubstrOf r ("Unknown provider: " ++ name ++ ". Available: " ++
        pyListRepr ["groq", "openai"])) := by
  have hg2 : (name == "groq") = false := by simp [hg]
  have ho2 : (name == "openai") = false := by simp [ho]
  constructor
  · simp [ProviderFactory_get_provider, get_provider_config, pyOrOpt, hne,
      AI_PROVIDERS, List.lookup, hg2, ho2, pyListRepr]
  · intro r hr
    have htail : SubstrOf (pyListRepr ["groq", "openai"])
        ("Unknown provider: " ++ name ++ ". Available: " ++ pyListRepr ["groq", "openai"]) :=
      substrOf_of_eq ("Unknown provider: " ++ name ++ ". Available: ")
        (pyListRepr ["groq", "openai"]) "" _ (by rw [String.append_empty])
    have hr2 : r = "groq" ∨ r = "openai" := by
      simpa [factoryRegistry] using hr
    rcases hr2 with h | h <;> subst h
    · exact substrOf_trans ⟨"[\x27".data, "\x27, \x27openai\x27]".data, by decide⟩ htail
    · exact substrOf_trans ⟨"[\x27groq\x27, \x27".data, "\x27]".data, by decide⟩ htail

/-- C7 witness: requesting the unknown provider `foo` fails with a message in
which each registered name occurs. -/
theorem claim_C7_witness :
    (("foo" : String) ≠ "" ∧ factoryRegistry.contains "foo" = false) ∧
    (ProviderFactory_get_provider apiKeysGroqOnly "groq" (some "foo") none [] 0 =
      Except.error ("Unknown provider: " ++ "foo" ++ ". Available: " ++
        pyListRepr ["groq", "openai"]) ∧
     (∀ r ∈ factoryRegistry,
       SubstrOf r ("Unknown provider: " ++ "foo" ++ ". Available: " ++
         pyListRepr ["groq", "openai"]))) :=
  ⟨⟨by decide, by decide⟩,
   claim_C7 apiKeysGroqOnly "groq" "foo" none [] 0 (by decide) (by decide) (by decide)⟩

def getenvOpenaiOnly : String → Option String :=
  fun v => if v = "OPENAI_API_KEY" then some "ok" else none

/-- C8 counterexample: `groq` is a known provider with no configured API key;
construction fails before any instance is created, but the configuration
error's message names the provider, and the missing environment variable
`GROQ_API_KEY` appears nowhere in it. -/
theorem claim_C8_counterexample :
    (AI_PROVIDERS.lookup "groq").isSome = true ∧
    mkApiKeys getenvOpenaiOnly "groq" = none ∧
    ProviderFactory_get_provider (mkApiKeys getenvOpenaiOnly) "groq" (some "groq")
      none [] 0 = Except.error "API key not found for provider: groq" ∧
    containsStr "API key not found for provider: groq" "GROQ_API_KEY" = false := by
  exact ⟨by rfl, by rfl, by rfl, by decide⟩

/-- C8 (amended): for every known provider name with no configured API key
(environment variable unset or empty), constructing a provider instance for it
fails, before any provider instance is created, with a configuration error
whose message names the provider (not the missing environment variable). -/
theorem claim_C8 (getenv : String → Option String) (defaultProvider name : String)
    (modelKwarg : Option (Option String)) (kwargs : List (String × String)) (fresh : Nat)
    (hknown : (AI_PROVIDERS.lookup name).isSome = true)
    (hnokey : mkApiKeys getenv name = none) :
    ProviderFactory_get_provider (mkApiKeys getenv) defaultProvider (some name)
      modelKwarg kwargs fresh =
      Except.error ("API key not found for provider: " ++ name) := by
  by_cases hg : name = "groq"
  · subst hg
    simp [ProviderFactory_get_provider, get_provider_config, pyOrOpt,
      AI_PROVIDERS, List.lookup, hnokey]
  · by_cases ho : name = "openai"
    · subst ho
      simp [ProviderFactory_get_provider, get_provider_config, pyOrOpt,
        AI_PROVIDERS, List.lookup, hnokey]
    · exfalso
      have hg2 : (name == "groq") = false := by simp [hg]
      have ho2 : (name == "openai") = false := by simp [ho]
      simp [AI_PROVIDERS, List.lookup, hg2, ho2] at hknown

/-- C8 witness: with only the openai key configured, requesting groq fails
with the configuration error naming the provider. -/
theorem claim_C8_witness :
    ((AI_PROVIDERS.lookup "groq").isSome = true ∧
     mkApiKeys getenvOpenaiOnly "groq" = none) ∧
    ProviderFactory_get_provider (mkApiKeys getenvOpenaiOnly) "groq" (some "groq")
      none [] 0 = Except.error ("API key not found for provider: " ++ "groq") :=
  ⟨⟨by rfl, by rfl⟩,
   claim_C8 getenvOpenaiOnly "groq" "groq" none [] 0 (by rfl) (by rfl)⟩

theorem factory_ok_fields (apiKeys : String → Option String)
    (defaultProvider name : String) (modelVal : Option String)
    (kwargs : List (String × String)) (fresh : Nat) (inst : ProviderInstance)
    (hne : name ≠ "")
    (h : ProviderFactory_get_provider apiKeys defaultProvider (some name)
      (some modelVal) kwargs fresh = Except.ok inst) :
    inst.providerClass = name ∧ apiKeys name = some inst.api_key ∧
    inst.model = modelVal ∧ inst.extra = kwargs ∧ inst.clientId = fresh := by
  unfold ProviderFactory_get_provider get_provider_config at h
  simp only [pyOrOpt, if_neg hne] at h
  cases hl : AI_PROVIDERS.lookup name with
  | none => simp [hl] at h
  | some meta =>
    cases hk : apiKeys name with
    | none => simp [hl, hk] at h
    | some k =>
      by_cases hke : k = ""
      · simp [hl, hk, hke] at h
      · by_cases hreg : name ∈ factoryRegistry
        · simp only [hl, hk, if_neg hke] at h
          rw [if_pos (by simpa using hreg)] at h
          simp only [Except.ok.injEq] at h
          subst h
          exact ⟨rfl, rfl, rfl, rfl, rfl⟩
        · simp only [hl, hk, if_neg hke] at h
          rw [if_neg (by simpa using hreg)] at h
          exact absurd h (by simp)

/-- C6 (amended): after a successful `switch_provider(new_name)`, subsequent
completion calls go through a freshly constructed instance of the new
provider — its class is the new provider, its API key is the new provider's
key, its client is newly constructed and distinct from the old provider's
client — but the assistant's `model` is carried over unchanged from before the
switch (the new provider's default model is not applied) and `provider_config`
still holds the old provider's configuration. -/
theorem claim_C6 (apiKeys : String → Option String) (defaultProvider : String)
    (a a2 : Assistant) (newName : String) (kw : List (String × String))
    (hfresh : a.provider.clientId < a.nextClientId) (hne : newName ≠ "")
    (hsw : switch_provider apiKeys defaultProvider a newName kw = Except.ok a2) :
    a2.provider.providerClass = newName ∧
    apiKeys newName = some a2.provider.api_key ∧
    a2.provider.clientId = a.nextClientId ∧
    a2.provider.clientId ≠ a.provider.clientId ∧
    (∀ p, assistantCompletionRequest a2 p = ⟨a.nextClientId, some a.model, p⟩) ∧
    a2.model = a.model ∧
    a2.provider.model = some a.model ∧
    a2.provider_config = a.provider_config := by
  unfold switch_provider at hsw
  cases hf : ProviderFactory_get_provider apiKeys defaultProvider (some newName)
      (some (some a.model)) (dictUpdate a.kwargs kw) a.nextClientId with
  | error e => rw [hf] at hsw; exact absurd hsw (by simp)
  | ok inst =>
    rw [hf] at hsw
    simp only [Except.ok.injEq] at hsw
    obtain ⟨h1, h2, h3, h4, h5⟩ :=
      factory_ok_fields apiKeys defaultProvider newName (some a.model)
        (dictUpdate a.kwargs kw) a.nextClientId inst hne hf
    subst hsw
    refine ⟨h1, by rw [h2], h5, ?_, ?_, rfl, h3, rfl⟩
    · rw [h5]; exact (Nat.ne_of_lt hfresh).symm
    · intro p
      simp [assistantCompletionRequest, h3, h5]

def apiKeysBoth : String → Option String :=
  fun p => if p = "groq" then some "gk" else if p = "openai" then some "ok" else none

/-- A concrete assistant as `BaseAssistant_init apiKeysBoth "groq" (some
"groq") none [] 0` constructs it. -/
def assistantW : Assistant :=
  ⟨"groq", "llama-3.1-70b-versatile",
    ⟨"GROQ_API_KEY", "llama-3.1-70b-versatile", "https://api.groq.com/openai/v1",
      "GroqClient", "gk"⟩,
    [], ⟨"groq", "gk", some "llama-3.1-70b-versatile", [], 0⟩, 1⟩

/-- The assistant after `switch_provider("openai")`. -/
def assistantW2 : Assistant :=
  ⟨"openai", "llama-3.1-70b-versatile",
    ⟨"GROQ_API_KEY", "llama-3.1-70b-versatile", "https://api.groq.com/openai/v1",
      "GroqClient", "gk"⟩,
    [], ⟨"openai", "ok", some "llama-3.1-70b-versatile", [], 1⟩, 2⟩

/-- C6 counterexample: the assistant is constructed for groq (resolving the
model to groq's default `llama-3.1-70b-versatile`), then switched to openai.
The switch succeeds, but subsequent completions name the groq-resolved model,
not the openai configuration's `gpt-4`: the new provider's configuration is
not fully adopted, and the old provider's model leaks through the switch. -/
theorem claim_C6_counterexample :
    BaseAssistant_init apiKeysBoth "groq" (some "groq") none [] 0 =
      Except.ok assistantW ∧
    switch_provider apiKeysBoth "groq" assistantW "openai" [] =
      Except.ok assistantW2 ∧
    (AI_PROVIDERS.lookup "openai").map (fun m => m.default_model) = some "gpt-4" ∧
    assistantCompletionRequest assistantW2 "hi" =
      ⟨1, some "llama-3.1-70b-versatile", "hi"⟩ ∧
    assistantW2.provider.model ≠ some "gpt-4" ∧
    assistantW2.provider_config = assistantW.provider_config := by
  exact ⟨by rfl, by rfl, by rfl, by rfl, by decide, by rfl⟩

/-- C6 witness: switching the concrete groq assistant to openai yields a fresh
openai instance carrying openai's key and a new client, while the model and
the stored provider config are carried over. -/
theorem claim_C6_witness :
    (assistantW.provider.clientId < assistantW.nextClientId ∧
     switch_provider apiKeysBoth "groq" assistantW "openai" [] =
       Except.ok assistantW2) ∧
    (assistantW2.provider.providerClass = "openai" ∧
     apiKeysBoth "openai" = some assistantW2.provider.api_key ∧
     assistantW2.provider.clientId = assistantW.nextClientId ∧
     assistantW2.provider.clientId ≠ assistantW.provider.clientId ∧
     assistantCompletionRequest assistantW2 "hi" =
       ⟨assistantW.nextClientId, some assistantW.model, "hi"⟩ ∧
     assistantW2.model = assistantW.model ∧
     assistantW2.provider.model = some assistantW.model ∧
     assistantW2.provider_config = assistantW.provider_config) := by
  have h := claim_C6 apiKeysBoth "groq" assistantW assistantW2 "openai" []
    (by decide) (by decide) (by rfl)
  exact ⟨⟨by decide, by rfl⟩,
    ⟨h.1, h.2.1, h.2.2.1, h.2.2.2.1, h.2.2.2.2.1 "hi", h.2.2.2.2.2.1,
      h.2.2.2.2.2.2.1, h.2.2.2.2.2.2.2⟩⟩

end Fawern
